import Mathlib

/-!
Verification of the DNA-barcode analysis core of dna-detective-bloom.

The repository holds two boundary variants of the same engine:
`src/backend/app.py` (Flask, in-memory `DNA_DATABASE`) and
`src/server/app.py` (FastAPI, records fetched from MongoDB).  Both define
`validate_dna_sequence`, `calculate_similarity`, `identify_barcode_region`
and `analyze_dna_sequence` over the same fixed `BARCODE_REGIONS` table.

Embedding conventions:
* Python floats are modelled as exact rationals (`ℚ`); every score the code
  computes is a ratio of small integers, and no claim here depends on
  binary rounding.
* Fallible code is modelled in `Option`: the backend variant of
  `calculate_similarity` divides by `shortest_length` without a guard, so a
  `ZeroDivisionError` (and the `KeyError` a weightless record would raise
  in the backend search loop) is `none`; the server variant guards with
  `else 0` and is total.
* Python's `str.upper` is modelled on the ASCII range (the only range that
  can produce the accepted alphabet A, T, G, C), and `re`'s `\s` class by
  the explicit list `pyIsSpace` of Unicode whitespace code points.
* Dictionaries in insertion order are modelled as association lists;
  `dictGet` is `dict.get`, `dictInsert` is `dict.__setitem__`.
-/

/-- Character class of the regex `[ATGC]`. -/
def isNucleotide (c : Char) : Bool :=
  c == 'A' || c == 'T' || c == 'G' || c == 'C'

/-- Whitespace class of Python's `re.sub(r'\s', '', …)` on `str` (Unicode
whitespace code points). -/
def pyIsSpace (c : Char) : Bool :=
  [' ', '\t', '\n', '\x0b', '\x0c', '\r',
   '\x1c', '\x1d', '\x1e', '\x1f', '\x85', '\xa0', '\u1680',
   '\u2000', '\u2001', '\u2002', '\u2003', '\u2004', '\u2005', '\u2006',
   '\u2007', '\u2008', '\u2009', '\u200a', '\u2028', '\u2029',
   '\u202f', '\u205f', '\u3000'].contains c

/-- Normalisation both variants apply before validating and before
searching: `re.sub(r'\s', '', sequence.upper())` — upper-case, then drop
every whitespace character. -/
def normalize_sequence (s : String) : String :=
  String.mk ((s.toList.map Char.toUpper).filter (fun c => !(pyIsSpace c)))

/-- Matching against the anchored regex `^[ATGC]+$`: at least one
character, all from the nucleotide alphabet. -/
def matchesATGCPlus : List Char → Bool
  | [] => false
  | c :: cs => isNucleotide c && cs.all isNucleotide

/-- Embedding of `validate_dna_sequence` (src/backend/app.py, lines 54-57):
`bool(re.match(r'^[ATGC]+$', re.sub(r'\s', '', sequence.upper())))`. -/
def validate_dna_sequence_backend (sequence : String) : Bool :=
  matchesATGCPlus (normalize_sequence sequence).toList

/-- Embedding of `validate_dna_sequence` (src/server/app.py, lines 67-69),
textually the same computation as the backend variant. -/
def validate_dna_sequence (sequence : String) : Bool :=
  matchesATGCPlus (normalize_sequence sequence).toList

/-- Count of index-wise equal symbol pairs over the common prefix of two
character lists: the loop `for i in range(shortest_length): if seq1[i] ==
seq2[i]: matches += 1`. -/
def countMatches : List Char → List Char → Nat
  | c1 :: r1, c2 :: r2 => (if c1 = c2 then 1 else 0) + countMatches r1 r2
  | _, _ => 0

/-- Embedding of `calculate_similarity` (src/server/app.py, lines 71-74):
`matches / shortest_length if shortest_length > 0 else 0`. -/
def calculate_similarity (seq1 seq2 : String) : ℚ :=
  let shortest_length := min seq1.length seq2.length
  let m := countMatches seq1.toList seq2.toList
  if shortest_length > 0 then (m : ℚ) / (shortest_length : ℚ) else 0

/-- Embedding of `calculate_similarity` (src/backend/app.py, lines 72-82):
`return matches / shortest_length` with no guard, so a zero
`shortest_length` raises `ZeroDivisionError`, modelled as `none`. -/
def calculate_similarity_backend (seq1 seq2 : String) : Option ℚ :=
  let shortest_length := min seq1.length seq2.length
  let m := countMatches seq1.toList seq2.toList
  if shortest_length = 0 then none
  else some ((m : ℚ) / (shortest_length : ℚ))

/-- The fixed reference prototype table `BARCODE_REGIONS`, identical in
both variants, in its insertion order. -/
def BARCODE_REGIONS : List (String × String) :=
  [("ITS", "CGTAACAAGGTTTCCGTAGGTGAACCTGCGGAAGGATCATTG"),
   ("RBCL", "ATGTCACCACAAACAGAGACTAAAGCAAGT"),
   ("MATK", "ACCCAGTCCATCTGGAAATCTTGGTTCAGG")]

/-- Body of the classifier loop of `identify_barcode_region` (server
variant): update `(best_match, highest_score)` only on a strictly greater
score. -/
def identifyStep (sequence : String) (acc : String × ℚ) (rp : String × String) :
    String × ℚ :=
  let score := calculate_similarity sequence rp.2
  if score > acc.2 then (rp.1, score) else acc

/-- The classifier loop's final `(best_match, highest_score)` state,
starting from `('', 0)`. -/
def identifyFold (protos : List (String × String)) (sequence : String) :
    String × ℚ :=
  protos.foldl (identifyStep sequence) ("", 0)

/-- Embedding of `identify_barcode_region` (src/server/app.py, lines
76-84) generalised over the prototype table it scans. -/
def identify_barcode_region_over (protos : List (String × String))
    (sequence : String) : String :=
  (identifyFold protos sequence).1

/-- Embedding of `identify_barcode_region` (src/server/app.py, lines
76-84): the loop over the fixed `BARCODE_REGIONS` table. -/
def identify_barcode_region (sequence : String) : String :=
  identify_barcode_region_over BARCODE_REGIONS sequence

/-- Body of the classifier loop of the backend variant
(src/backend/app.py, lines 59-70): the same update, except that its
similarity call can raise. -/
def identifyStepM (sequence : String) (acc : String × ℚ) (rp : String × String) :
    Option (String × ℚ) := do
  let score ← calculate_similarity_backend sequence rp.2
  pure (if score > acc.2 then (rp.1, score) else acc)

/-- Embedding of `identify_barcode_region` (src/backend/app.py, lines
59-70): `none` models an escaping `ZeroDivisionError`. -/
def identify_barcode_region_backend (sequence : String) : Option String :=
  (BARCODE_REGIONS.foldlM (identifyStepM sequence) ("", 0)).map Prod.fst

/-- One reference organism: scientific name, common name, per-region
barcode mapping in insertion order, and the authenticity weight
(`none` models a record without the `authenticity` key; the unused
numeric `id` field of the backend's literals is omitted). -/
structure SpeciesRecord where
  species : String
  commonName : String
  barcodes : List (String × String)
  authenticity : Option ℚ
deriving DecidableEq

/-- The result dictionary both `analyze_dna_sequence` variants build on an
update of the best match. -/
structure MatchResult where
  matchedSpecies : String
  commonName : String
  confidenceScore : ℚ
  matchPercentage : ℚ
  barcodeRegion : String
  sequence : String
deriving DecidableEq

/-- Python `dict.get` on an insertion-ordered association list. -/
def dictGet : List (String × String) → String → Option String
  | [], _ => none
  | (k, v) :: rest, key => if k = key then some v else dictGet rest key

/-- The literal result dictionary: `confidenceScore` is weight times
score, `matchPercentage` is `score * 100`. -/
def mkMatchResult (barcode_region clean_sequence : String)
    (plant : SpeciesRecord) (w score : ℚ) : MatchResult :=
  ⟨plant.species, plant.commonName, w * score, score * 100,
   barcode_region, clean_sequence⟩

/-- Body of the search loop of `analyze_dna_sequence`
(src/server/app.py, lines 99-111): skip a record whose `barcodes` mapping
lacks the region or maps it to a falsy (empty) string, otherwise update
`(best_match, highest_score)` on a strictly greater score;
`plant.get("authenticity", 1)` defaults a missing weight to 1. -/
def searchStep (barcode_region clean_sequence : String)
    (acc : Option MatchResult × ℚ) (plant : SpeciesRecord) :
    Option MatchResult × ℚ :=
  match dictGet plant.barcodes barcode_region with
  | some plant_barcode =>
    if plant_barcode ≠ "" then
      let score := calculate_similarity clean_sequence plant_barcode
      if score > acc.2 then
        (some (mkMatchResult barcode_region clean_sequence plant
          (plant.authenticity.getD 1) score), score)
      else acc
    else acc
  | none => acc

/-- Embedding of `analyze_dna_sequence` (src/server/app.py, lines 86-113)
with the candidate records the Mongo query returns as a parameter:
validate, normalise, classify, then scan the candidates for the best
strictly-positive score. -/
def analyze_dna_sequence (candidates : List SpeciesRecord)
    (sequence : String) : Option MatchResult :=
  if !(validate_dna_sequence sequence) then none
  else
    let clean_sequence := normalize_sequence sequence
    let barcode_region := identify_barcode_region clean_sequence
    (candidates.foldl (searchStep barcode_region clean_sequence)
      (none, 0)).1

/-- The backend's fixed in-memory `DNA_DATABASE` record for Panax ginseng
(src/backend/app.py, lines 19-29). -/
def ginsengRecord : SpeciesRecord :=
  ⟨"Panax ginseng", "Asian Ginseng",
   [("ITS", "CGTAACAAGGTTTCCGTAGGTGAACCTGCGGAAGGATCATTGTCGAAACCTGCATAGCAGAA"),
    ("RBCL", "ATGTCACCACAAACAGAGACTAAAGCAAGTGTTGGATTCAAAGCTGGTGTTAAA"),
    ("MATK", "ACCCAGTCCATCTGGAAATCTTGGTTCAGGACTCCCCTTCTTATATAATTCT")],
   some (97 / 100)⟩

/-- The backend's `DNA_DATABASE` record for Ocimum basilicum
(src/backend/app.py, lines 30-40). -/
def basilRecord : SpeciesRecord :=
  ⟨"Ocimum basilicum", "Sweet Basil",
   [("ITS", "CGTAACAAGGTTTCCGTAGGTGAACCTGCGGAAGGATCATTGTCGAAACCTGCATAGCAGA"),
    ("RBCL", "ATGTCACCACAAACAGAGACTAAAGCAAGTGTTGGATTCAAAGCTGGTGT"),
    ("MATK", "ACCCAGTCCATCTGGAAATCTTGGTTCAGGACTCCCCCTATATAATTCT")],
   some (95 / 100)⟩

/-- The backend's `DNA_DATABASE` record for Curcuma longa
(src/backend/app.py, lines 41-51). -/
def turmericRecord : SpeciesRecord :=
  ⟨"Curcuma longa", "Turmeric",
   [("ITS", "CGTAACAAGGTTTCCGTAGGTGAACCTGCGGAAGGATCATTGAGTGAAACCTGC"),
    ("RBCL", "ATGTCACCACAAACAGAGACTAAAGCAAGTGTTGGATTTAAAGCTGGTGTT"),
    ("MATK", "ACCCAGTCCATCTGGAAATCTTGGTTCAGGACTCCCTTCTATATAATTCTCATG")],
   some (92 / 100)⟩

/-- The backend's fixed sample database in its declaration order
(src/backend/app.py, lines 18-52). -/
def DNA_DATABASE : List SpeciesRecord :=
  [ginsengRecord, basilRecord, turmericRecord]

/-- Body of the backend search loop (src/backend/app.py, lines 92-108):
as `searchStep`, but its similarity call can raise, and
`plant["authenticity"]` raises `KeyError` (here `none`) on a record
without a weight instead of defaulting. -/
def searchStepM (barcode_region clean_sequence : String)
    (acc : Option MatchResult × ℚ) (plant : SpeciesRecord) :
    Option (Option MatchResult × ℚ) :=
  match dictGet plant.barcodes barcode_region with
  | some plant_barcode =>
    if plant_barcode ≠ "" then do
      let score ← calculate_similarity_backend clean_sequence plant_barcode
      if score > acc.2 then do
        let w ← plant.authenticity
        pure (some (mkMatchResult barcode_region clean_sequence plant w score),
          score)
      else pure acc
    else pure acc
  | none => pure acc

/-- Embedding of `analyze_dna_sequence` (src/backend/app.py, lines
84-110): over the fixed `DNA_DATABASE`; the outer `Option` models an
escaping exception (`none`), the inner one the `None`-vs-result value the
function returns. -/
def analyze_dna_sequence_backend (sequence : String) :
    Option (Option MatchResult) :=
  if !(validate_dna_sequence_backend sequence) then some none
  else do
    let clean_sequence := normalize_sequence sequence
    let barcode_region ← identify_barcode_region_backend clean_sequence
    let res ← DNA_DATABASE.foldlM
      (searchStepM barcode_region clean_sequence) (none, 0)
    pure res.1

/-- Embedding of the `/api/analyze` route `analyze_sequence`
(src/backend/app.py, lines 112-124): a missing body or missing
`sequence` key is one 400, and a falsy analysis result — invalid sequence
or no match alike — is the single 400 message; an escaping exception
would be a 500. -/
def analyze_sequence_route (body : Option String) :
    Except (Nat × String) MatchResult :=
  match body with
  | none => Except.error (400, "No sequence provided")
  | some sequence =>
    match analyze_dna_sequence_backend sequence with
    | some (some result) => Except.ok result
    | some none => Except.error (400, "Invalid DNA sequence or no match found")
    | none => Except.error (500, "Internal Server Error")

/-- Python dict assignment `samples[commonName] = sequence` on an
insertion-ordered association list: overwrite in place, else append. -/
def dictInsert : List (String × String) → String → String → List (String × String)
  | [], k, v => [(k, v)]
  | (k', v') :: rest, k, v =>
    if k' = k then (k, v) :: rest else (k', v') :: dictInsert rest k v

/-- Body of the `get_samples` loop (src/backend/app.py, lines 126-135):
take the first entry of the record's `barcodes` mapping and `break`; a
record with an empty mapping adds nothing. -/
def samplesStep (samples : List (String × String)) (plant : SpeciesRecord) :
    List (String × String) :=
  match plant.barcodes with
  | [] => samples
  | (_, sequence) :: _ => dictInsert samples plant.commonName sequence

/-- Embedding of the `/api/samples` listing (src/backend/app.py, lines
126-135 and src/server/app.py, lines 123-131) with the records scanned as
a parameter. -/
def get_samples_over (records : List SpeciesRecord) :
    List (String × String) :=
  records.foldl samplesStep []

/-- The backend's `get_samples` over its fixed `DNA_DATABASE`. -/
def get_samples : List (String × String) :=
  get_samples_over DNA_DATABASE

/-- Evaluation helper: a similarity score from a concrete match count and
a concrete positive common-prefix length. -/
theorem calculate_similarity_eval (a b : String) (m L : Nat)
    (hm : countMatches a.data b.data = m)
    (hL : min a.length b.length = L) (hpos : 0 < L) :
    calculate_similarity a b = (m : ℚ) / (L : ℚ) := by
  simp [calculate_similarity, hm, hL, hpos]

/-- Evaluation helper for the backend variant. -/
theorem calculate_similarity_backend_eval (a b : String) (m L : Nat)
    (hm : countMatches a.data b.data = m)
    (hL : min a.length b.length = L) (hpos : 0 < L) :
    calculate_similarity_backend a b = some ((m : ℚ) / (L : ℚ)) := by
  simp [calculate_similarity_backend, hm, hL, Nat.pos_iff_ne_zero.mp hpos]

/-- On any pair whose common prefix is non-empty the backend scorer
returns (does not raise) exactly the server scorer's value. -/
theorem calculate_similarity_backend_agrees (a b : String)
    (h : 0 < min a.length b.length) :
    calculate_similarity_backend a b = some (calculate_similarity a b) := by
  simp [calculate_similarity_backend, calculate_similarity, h,
    Nat.pos_iff_ne_zero.mp h]

/-- Index-wise match counting is symmetric. -/
theorem countMatches_symm : ∀ (l1 l2 : List Char),
    countMatches l1 l2 = countMatches l2 l1
  | [], [] => rfl
  | [], _ :: _ => rfl
  | _ :: _, [] => rfl
  | c1 :: r1, c2 :: r2 => by
    simp only [countMatches, countMatches_symm r1 r2]
    by_cases h : c1 = c2
    · simp [h]
    · simp [h, Ne.symm h]

/-- On any non-empty sequence the backend classifier returns (does not
raise) exactly the server classifier's region. -/
theorem identify_backend_agrees (s : String) (hs : 0 < s.length) :
    identify_barcode_region_backend s = some (identify_barcode_region s) := by
  have h1 : calculate_similarity_backend s "CGTAACAAGGTTTCCGTAGGTGAACCTGCGGAAGGATCATTG" =
      some (calculate_similarity s "CGTAACAAGGTTTCCGTAGGTGAACCTGCGGAAGGATCATTG") :=
    calculate_similarity_backend_agrees _ _ (Nat.lt_min.mpr ⟨hs, by decide⟩)
  have h2 : calculate_similarity_backend s "ATGTCACCACAAACAGAGACTAAAGCAAGT" =
      some (calculate_similarity s "ATGTCACCACAAACAGAGACTAAAGCAAGT") :=
    calculate_similarity_backend_agrees _ _ (Nat.lt_min.mpr ⟨hs, by decide⟩)
  have h3 : calculate_similarity_backend s "ACCCAGTCCATCTGGAAATCTTGGTTCAGG" =
      some (calculate_similarity s "ACCCAGTCCATCTGGAAATCTTGGTTCAGG") :=
    calculate_similarity_backend_agrees _ _ (Nat.lt_min.mpr ⟨hs, by decide⟩)
  simp [identify_barcode_region_backend, identify_barcode_region,
    identify_barcode_region_over, identifyFold, BARCODE_REGIONS,
    List.foldlM, List.foldl, identifyStepM, identifyStep, h1, h2, h3]

/-- Invariant of the search loop: the running best score never decreases,
an untouched state passes through, a produced result comes from some
comparable candidate whose score is the final (strictly positive) best,
and every comparable candidate's score is bounded by the final best. -/
theorem searchFold_spec (region clean : String) :
    ∀ (l : List SpeciesRecord) (acc res : Option MatchResult × ℚ),
      res = l.foldl (searchStep region clean) acc →
      0 ≤ acc.2 → (acc.1 = none → acc.2 = 0) →
      acc.2 ≤ res.2 ∧
      (res.1 = none → res = acc) ∧
      (∀ r : MatchResult, res.1 = some r →
        res = acc ∨
        ∃ p ∈ l, ∃ b, dictGet p.barcodes region = some b ∧ b ≠ "" ∧
          res.2 = calculate_similarity clean b ∧
          r = mkMatchResult region clean p (p.authenticity.getD 1)
            (calculate_similarity clean b) ∧
          0 < res.2) ∧
      (∀ q ∈ l, ∀ c, dictGet q.barcodes region = some c → c ≠ "" →
        calculate_similarity clean c ≤ res.2) := by
  intro l
  induction l with
  | nil =>
    intro acc res hres h0 hn
    simp only [List.foldl_nil] at hres
    subst hres
    exact ⟨le_refl _, fun _ => rfl, fun r _ => Or.inl rfl,
      fun q hq => absurd hq (List.not_mem_nil q)⟩
  | cons p t ih =>
    intro acc res hres h0 hn
    rw [List.foldl_cons] at hres
    rcases hstep : dictGet p.barcodes region with _ | b
    · -- region absent from this record: the state is unchanged
      have hacc' : searchStep region clean acc p = acc := by
        simp [searchStep, hstep]
      rw [hacc'] at hres
      obtain ⟨ha, hb', hc, hd⟩ := ih acc res hres h0 hn
      refine ⟨ha, hb', ?_, ?_⟩
      · intro r hr
        rcases hc r hr with h | ⟨p', hp', rest⟩
        · exact Or.inl h
        · exact Or.inr ⟨p', List.mem_cons_of_mem _ hp', rest⟩
      · intro q hq c hcg hcne
        rcases List.mem_cons.mp hq with rfl | hq'
        · rw [hstep] at hcg; exact absurd hcg (by simp)
        · exact hd q hq' c hcg hcne
    · by_cases hb : b ≠ ""
      · by_cases hsc : calculate_similarity clean b > acc.2
        · -- strictly better score: the head record becomes the best match
          have hacc' : searchStep region clean acc p =
              (some (mkMatchResult region clean p (p.authenticity.getD 1)
                (calculate_similarity clean b)), calculate_similarity clean b) := by
            simp [searchStep, hstep, hb, hsc]
          rw [hacc'] at hres
          have h0' : (0 : ℚ) ≤ calculate_similarity clean b :=
            le_of_lt (lt_of_le_of_lt h0 hsc)
          obtain ⟨ha, hb', hc, hd⟩ := ih _ res hres h0' (by simp)
          simp only at ha
          refine ⟨le_trans (le_of_lt hsc) ha, ?_, ?_, ?_⟩
          · intro hrnone
            have := hb' hrnone
            rw [this] at hrnone
            simp at hrnone
          · intro r hr
            rcases hc r hr with h | ⟨p', hp', b', hg', hne', hs', hr', hpos'⟩
            · refine Or.inr ⟨p, List.mem_cons_self p t, b, hstep, hb, ?_, ?_, ?_⟩
              · rw [h]
              · have : res.1 = some (mkMatchResult region clean p
                    (p.authenticity.getD 1) (calculate_similarity clean b)) := by
                  rw [h]
                rw [this] at hr
                exact (Option.some_inj.mp hr).symm
              · rw [h]; exact lt_of_le_of_lt h0 hsc
            · exact Or.inr ⟨p', List.mem_cons_of_mem _ hp', b', hg', hne', hs', hr', hpos'⟩
          · intro q hq c hcg hcne
            rcases List.mem_cons.mp hq with rfl | hq'
            · rw [hstep] at hcg
              have hbc : b = c := by simpa using hcg
              subst hbc
              exact ha
            · exact hd q hq' c hcg hcne
        · -- score not above the running best: the state is unchanged
          have hacc' : searchStep region clean acc p = acc := by
            simp [searchStep, hstep, hb, hsc]
          rw [hacc'] at hres
          obtain ⟨ha, hb', hc, hd⟩ := ih acc res hres h0 hn
          refine ⟨ha, hb', ?_, ?_⟩
          · intro r hr
            rcases hc r hr with h | ⟨p', hp', rest⟩
            · exact Or.inl h
            · exact Or.inr ⟨p', List.mem_cons_of_mem _ hp', rest⟩
          · intro q hq c hcg hcne
            rcases List.mem_cons.mp hq with rfl | hq'
            · rw [hstep] at hcg
              have hbc : b = c := by simpa using hcg
              subst hbc
              exact le_trans (not_lt.mp hsc) ha
            · exact hd q hq' c hcg hcne
      · -- falsy (empty) reference string: skipped like a missing region
        have hacc' : searchStep region clean acc p = acc := by
          simp [searchStep, hstep, hb]
        rw [hacc'] at hres
        obtain ⟨ha, hb', hc, hd⟩ := ih acc res hres h0 hn
        refine ⟨ha, hb', ?_, ?_⟩
        · intro r hr
          rcases hc r hr with h | ⟨p', hp', rest⟩
          · exact Or.inl h
          · exact Or.inr ⟨p', List.mem_cons_of_mem _ hp', rest⟩
        · intro q hq c hcg hcne
          rcases List.mem_cons.mp hq with rfl | hq'
          · rw [hstep] at hcg
            have hbc : b = c := by simpa using hcg
            subst hbc
            exact absurd hcne hb
          · exact hd q hq' c hcg hcne

theorem analyze_dna_sequence_some (candidates : List SpeciesRecord)
    (sequence : String) (r : MatchResult)
    (h : analyze_dna_sequence candidates sequence = some r) :
    ∃ p ∈ candidates, ∃ b,
      dictGet p.barcodes
        (identify_barcode_region (normalize_sequence sequence)) = some b ∧
      b ≠ "" ∧
      r = mkMatchResult (identify_barcode_region (normalize_sequence sequence))
        (normalize_sequence sequence) p (p.authenticity.getD 1)
        (calculate_similarity (normalize_sequence sequence) b) ∧
      0 < calculate_similarity (normalize_sequence sequence) b ∧
      ∀ q ∈ candidates, ∀ c,
        dictGet q.barcodes
          (identify_barcode_region (normalize_sequence sequence)) = some c →
        c ≠ "" →
        calculate_similarity (normalize_sequence sequence) c ≤
          calculate_similarity (normalize_sequence sequence) b := by
  by_cases hv : validate_dna_sequence sequence
  · simp only [analyze_dna_sequence, hv, Bool.not_true, Bool.false_eq_true,
      if_false] at h
    obtain ⟨ha, hnone, hsome, hmax⟩ :=
      searchFold_spec (identify_barcode_region (normalize_sequence sequence))
        (normalize_sequence sequence) candidates (none, 0) _ rfl (le_refl 0)
        (fun _ => rfl)
    rcases hsome r h with heq | ⟨p, hp, b, h1, h2, h3, h4, h5⟩
    · rw [heq] at h; exact absurd h (by simp)
    · refine ⟨p, hp, b, h1, h2, h4, ?_, ?_⟩
      · rw [← h3]; exact h5
      · intro q hq c hcg hcne
        rw [← h3]
        exact hmax q hq c hcg hcne
  · simp [analyze_dna_sequence, hv] at h

/-- A non-empty string has positive length. -/
theorem string_length_pos_of_ne (b : String) (h : b ≠ "") : 0 < b.length := by
  rcases b with ⟨data⟩
  cases data with
  | nil => exact absurd rfl h
  | cons c cs => simp [String.length]

/-- A validated raw input normalises to a non-empty sequence. -/
theorem normalize_length_pos (s : String)
    (hv : validate_dna_sequence_backend s = true) :
    0 < (normalize_sequence s).length := by
  unfold validate_dna_sequence_backend at hv
  rcases hl : (normalize_sequence s).toList with _ | ⟨c, cs⟩
  · rw [hl] at hv; simp [matchesATGCPlus] at hv
  · have hd : (normalize_sequence s).length = (normalize_sequence s).data.length := rfl
    rw [hd, show (normalize_sequence s).data = (normalize_sequence s).toList from rfl, hl]
    simp

/-- One backend search step cannot raise when the analysed sequence is
non-empty and the record carries an authenticity weight. -/
theorem searchStepM_isSome (region clean : String)
    (acc : Option MatchResult × ℚ) (plant : SpeciesRecord)
    (hc : 0 < clean.length) (hw : plant.authenticity.isSome = true) :
    ∃ acc', searchStepM region clean acc plant = some acc' := by
  rcases hg : dictGet plant.barcodes region with _ | b
  · exact ⟨acc, by simp [searchStepM, hg]⟩
  · by_cases hb : b ≠ ""
    · simp only [searchStepM, hg]
      rw [if_pos hb]
      have hmin : 0 < min clean.length b.length :=
        Nat.lt_min.mpr ⟨hc, string_length_pos_of_ne b hb⟩
      rw [calculate_similarity_backend_agrees clean b hmin]
      by_cases hsc : calculate_similarity clean b > acc.2
      · obtain ⟨w, hww⟩ := Option.isSome_iff_exists.mp hw
        exact ⟨(some (mkMatchResult region clean plant w
          (calculate_similarity clean b)), calculate_similarity clean b),
          by simp [hsc, hww]⟩
      · exact ⟨acc, by simp [hsc]⟩
    · simp only [searchStepM, hg]
      rw [if_neg hb]
      exact ⟨acc, rfl⟩

/-- The backend search loop cannot raise over records that all carry
authenticity weights. -/
theorem searchFoldM_isSome :
    ∀ (l : List SpeciesRecord) (acc : Option MatchResult × ℚ)
      (region clean : String), 0 < clean.length →
      (∀ plant ∈ l, plant.authenticity.isSome = true) →
      ∃ res, l.foldlM (searchStepM region clean) acc = some res := by
  intro l
  induction l with
  | nil => intro acc _ _ _ _; exact ⟨acc, rfl⟩
  | cons p t ih =>
    intro acc region clean hc hall
    obtain ⟨acc', hacc'⟩ :=
      searchStepM_isSome region clean acc p hc (hall p (List.mem_cons_self p t))
    obtain ⟨res, hres⟩ :=
      ih acc' region clean hc (fun q hq => hall q (List.mem_cons_of_mem _ hq))
    exact ⟨res, by simp [List.foldlM, hacc', hres]⟩

/-- The backend pipeline never raises: its outer `Option` is always
`some`. -/
theorem analyze_backend_total (s : String) :
    ∃ o, analyze_dna_sequence_backend s = some o := by
  by_cases hv : validate_dna_sequence_backend s
  · have hc := normalize_length_pos s hv
    have hid := identify_backend_agrees (normalize_sequence s) hc
    obtain ⟨res, hres⟩ :=
      searchFoldM_isSome DNA_DATABASE (none, 0)
        (identify_barcode_region (normalize_sequence s)) (normalize_sequence s)
        hc (by decide)
    exact ⟨res.1, by simp [analyze_dna_sequence_backend, hv, hid, hres]⟩
  · have hv' : validate_dna_sequence_backend s = false := by
      revert hv; cases validate_dna_sequence_backend s <;> simp
    exact ⟨none, by simp [analyze_dna_sequence_backend, hv']⟩

/-- Lookup after a dict assignment: the assigned key reads back the new
value, every other key is unchanged. -/
theorem dictGet_dictInsert : ∀ (m : List (String × String)) (k v key : String),
    dictGet (dictInsert m k v) key = if k = key then some v else dictGet m key := by
  intro m
  induction m with
  | nil => intro k v key; simp [dictGet, dictInsert]
  | cons hd tl ih =>
    intro k v key
    obtain ⟨k1, v1⟩ := hd
    by_cases h1 : k1 = k
    · subst h1
      simp only [dictInsert, if_pos rfl, dictGet]
      by_cases h2 : k1 = key <;> simp [h2]
    · simp only [dictInsert, if_neg h1, dictGet]
      by_cases h2 : k1 = key
      · subst h2
        have hk : k ≠ k1 := fun hh => h1 hh.symm
        simp [hk, ih]
      · simp [h2, ih]

/-- Records whose common names all differ from `k` leave the entry of `k`
unchanged. -/
theorem samples_fold_nonmem : ∀ (l : List SpeciesRecord)
    (acc : List (String × String)) (k : String),
    (∀ r ∈ l, r.commonName ≠ k) →
    dictGet (l.foldl samplesStep acc) k = dictGet acc k := by
  intro l
  induction l with
  | nil => intro acc k _; rfl
  | cons p t ih =>
    intro acc k hk
    rw [List.foldl_cons,
      ih _ k (fun r hr => hk r (List.mem_cons_of_mem _ hr))]
    rcases hbar : p.barcodes with _ | ⟨⟨kk, seq⟩, rest⟩
    · simp [samplesStep, hbar]
    · simp only [samplesStep, hbar, dictGet_dictInsert]
      rw [if_neg (hk p (List.mem_cons_self p t))]

/-- With pairwise-distinct common names, each record's entry is the
sequence of the first region of its mapping, and absent when the mapping
is empty. -/
theorem samples_fold_spec : ∀ (l : List SpeciesRecord)
    (acc : List (String × String)),
    (l.map SpeciesRecord.commonName).Nodup →
    (∀ r ∈ l, dictGet acc r.commonName = none) →
    ∀ r ∈ l, dictGet (l.foldl samplesStep acc) r.commonName =
      r.barcodes.head?.map Prod.snd := by
  intro l
  induction l with
  | nil => intro acc _ _ r hr; exact absurd hr (List.not_mem_nil r)
  | cons p t ih =>
    intro acc hnd hacc r hr
    have hpnotin : p.commonName ∉ t.map SpeciesRecord.commonName := by
      rw [List.map_cons, List.nodup_cons] at hnd
      exact hnd.1
    have hndt : (t.map SpeciesRecord.commonName).Nodup := by
      rw [List.map_cons, List.nodup_cons] at hnd
      exact hnd.2
    rw [List.foldl_cons]
    rcases List.mem_cons.mp hr with rfl | hrt
    · rw [samples_fold_nonmem t (samplesStep acc r) r.commonName
        (fun q hq he => hpnotin (he ▸ List.mem_map_of_mem _ hq))]
      rcases hbar : r.barcodes with _ | ⟨⟨kk, seq⟩, rest⟩
      · simp only [samplesStep, hbar, List.head?_nil, Option.map_none']
        exact hacc r (List.mem_cons_self r t)
      · simp [samplesStep, hbar, dictGet_dictInsert]
    · refine ih (samplesStep acc p) hndt ?_ r hrt
      intro q hq
      rcases hbar : p.barcodes with _ | ⟨⟨kk, seq⟩, rest⟩
      · simp only [samplesStep, hbar]
        exact hacc q (List.mem_cons_of_mem _ hq)
      · have hne : p.commonName ≠ q.commonName :=
          fun he => hpnotin (he ▸ List.mem_map_of_mem _ hq)
        simp only [samplesStep, hbar, dictGet_dictInsert, if_neg hne]
        exact hacc q (List.mem_cons_of_mem _ hq)

/-- Characterisation of the anchored regex match `^[ATGC]+$` on a list of
characters. -/
theorem matchesATGCPlus_iff : ∀ l : List Char,
    matchesATGCPlus l = true ↔ l ≠ [] ∧ ∀ c ∈ l, isNucleotide c = true := by
  intro l
  cases l with
  | nil => simp [matchesATGCPlus]
  | cons c cs => simp [matchesATGCPlus, List.all_eq_true]

/-- A string differs from the empty string exactly when its character
list is non-empty. -/
theorem string_ne_empty_iff (s : String) : s ≠ "" ↔ s.toList ≠ [] := by
  constructor
  · intro h hl
    exact h (String.ext hl)
  · intro h hs
    exact h (by rw [hs]; rfl)

/-- Membership in the nucleotide alphabet, spelled out. -/
theorem isNucleotide_iff (c : Char) :
    isNucleotide c = true ↔ c = 'A' ∨ c = 'T' ∨ c = 'G' ∨ c = 'C' := by
  simp [isNucleotide, or_assoc]

/-- C2: the claim says `similarity` returns `0.0` whenever an operand is
empty and never raises.  The server variant does; the backend variant
divides `matches` by `shortest_length` with no guard and raises
`ZeroDivisionError` (modelled `none`) on every pair of empty minimum
length, e.g. both operands empty. -/
theorem claim2_backend_empty_division_fault :
    calculate_similarity_backend "" "" = none ∧
    calculate_similarity "" "" = 0 ∧
    calculate_similarity_backend "" "ATGC" = none ∧
    calculate_similarity "" "ATGC" = 0 :=
  ⟨rfl, rfl, rfl, rfl⟩

/-- C3 counterexample: on the pair `("", "A")` the backend scorer raises
(`none`) while the server scorer returns `0`, so the two
`calculate_similarity` variants do not compute the same function on every
input pair. -/
theorem claim3_variant_disagreement_counterexample :
    (calculate_similarity_backend "" "A" ==
      some (calculate_similarity "" "A")) = false ∧
    calculate_similarity_backend "" "A" = none ∧
    calculate_similarity "" "A" = 0 :=
  ⟨rfl, rfl, rfl⟩

/-- C3 (amended): the two variants' `validate_dna_sequence` agree on every
input; the two `calculate_similarity` agree (and the backend one returns
rather than raises) on every pair whose shorter operand is non-empty; the
two `identify_barcode_region` agree on every non-empty sequence. -/
theorem claim3_variant_agreement_on_nonempty :
    (∀ s : String, validate_dna_sequence_backend s = validate_dna_sequence s) ∧
    (∀ a b : String, 0 < min a.length b.length →
      calculate_similarity_backend a b = some (calculate_similarity a b)) ∧
    (∀ s : String, 0 < s.length →
      identify_barcode_region_backend s = some (identify_barcode_region s)) :=
  ⟨fun _ => rfl, calculate_similarity_backend_agrees, identify_backend_agrees⟩

/-- C9: positional similarity is symmetric, in both variants (for the
backend variant, the raising inputs coincide as well). -/
theorem claim9_similarity_symmetric :
    (∀ a b : String, calculate_similarity a b = calculate_similarity b a) ∧
    (∀ a b : String,
      calculate_similarity_backend a b = calculate_similarity_backend b a) := by
  constructor
  · intro a b
    simp only [calculate_similarity]
    rw [Nat.min_comm, countMatches_symm]
  · intro a b
    simp only [calculate_similarity_backend]
    rw [Nat.min_comm, countMatches_symm]

/-- C8: validation succeeds exactly on inputs that, after whitespace
removal and upper-casing, are non-empty and drawn from the alphabet
A, T, G, C; the ambiguity code N is rejected, lower case and embedded
whitespace are accepted. -/
theorem claim8_validation_characterization :
    (∀ s : String, validate_dna_sequence s = true ↔
      normalize_sequence s ≠ "" ∧
      ∀ c ∈ (normalize_sequence s).toList,
        c = 'A' ∨ c = 'T' ∨ c = 'G' ∨ c = 'C') ∧
    validate_dna_sequence "N" = false ∧
    validate_dna_sequence "ANGT" = false ∧
    validate_dna_sequence " a t\ng c " = true ∧
    validate_dna_sequence "" = false ∧
    validate_dna_sequence " " = false := by
  refine ⟨?_, by decide, by decide, by decide, by decide, by decide⟩
  intro s
  rw [validate_dna_sequence, matchesATGCPlus_iff, string_ne_empty_iff]
  constructor
  · rintro ⟨h1, h2⟩
    exact ⟨h1, fun c hc => (isNucleotide_iff c).mp (h2 c hc)⟩
  · rintro ⟨h1, h2⟩
    exact ⟨h1, fun c hc => (isNucleotide_iff c).mpr (h2 c hc)⟩

/-- C7: a prototype appended after the running best whose score does not
exceed the running best score never replaces it (so equal scores keep the
first-encountered region); concretely, the sequence `A` scores `1` on
both the RBCL and the MATK prototypes and the classifier returns `RBCL`,
declared first among the two. -/
theorem claim7_tie_first_encountered_wins :
    (∀ (protos : List (String × String)) (sequence region proto : String),
      calculate_similarity sequence proto ≤ (identifyFold protos sequence).2 →
      identify_barcode_region_over (protos ++ [(region, proto)]) sequence =
        identify_barcode_region_over protos sequence) ∧
    calculate_similarity "A" "ATGTCACCACAAACAGAGACTAAAGCAAGT" = 1 ∧
    calculate_similarity "A" "ACCCAGTCCATCTGGAAATCTTGGTTCAGG" = 1 ∧
    identify_barcode_region "A" = "RBCL" := by
  have hs1 : calculate_similarity "A" "CGTAACAAGGTTTCCGTAGGTGAACCTGCGGAAGGATCATTG" = 0 := by
    rw [calculate_similarity_eval _ _ 0 1 (by decide) (by decide) (by decide)]
    norm_num
  have hs2 : calculate_similarity "A" "ATGTCACCACAAACAGAGACTAAAGCAAGT" = 1 := by
    rw [calculate_similarity_eval _ _ 1 1 (by decide) (by decide) (by decide)]
    norm_num
  have hs3 : calculate_similarity "A" "ACCCAGTCCATCTGGAAATCTTGGTTCAGG" = 1 := by
    rw [calculate_similarity_eval _ _ 1 1 (by decide) (by decide) (by decide)]
    norm_num
  refine ⟨?_, hs2, hs3, ?_⟩
  · intro protos sequence region proto h
    have hstep : identifyFold (protos ++ [(region, proto)]) sequence =
        identifyStep sequence (identifyFold protos sequence) (region, proto) := by
      unfold identifyFold
      rw [List.foldl_append, List.foldl_cons, List.foldl_nil]
    simp only [identify_barcode_region_over, hstep, identifyStep]
    rw [if_neg (not_lt.mpr h)]
  · norm_num [identify_barcode_region, identify_barcode_region_over,
      identifyFold, BARCODE_REGIONS, identifyStep, hs1, hs2, hs3]

/-- The end-to-end sample input: the Panax ginseng ITS reference sequence
itself. -/
def its62 : String :=
  "CGTAACAAGGTTTCCGTAGGTGAACCTGCGGAAGGATCATTGTCGAAACCTGCATAGCAGAA"

/-- Test fixture: a candidate whose ITS reference shares no position with
the sequence `C`. -/
def c1rec : SpeciesRecord := ⟨"Zero Plant", "Zero", [("ITS", "G")], some 1⟩

/-- Test fixture: a candidate whose ITS reference equals the sequence
`C`. -/
def c1wrec : SpeciesRecord := ⟨"Win Plant", "Win", [("ITS", "C")], some 1⟩

/-- Test fixture: a candidate carrying no authenticity weight. -/
def c4rec : SpeciesRecord :=
  ⟨"Weightless Plant", "Weightless", [("ITS", "CG")], none⟩

/-- Test fixture: a record with an empty barcode mapping. -/
def dupRecordA : SpeciesRecord := ⟨"species-a", "Shared Name", [], none⟩

/-- Test fixture: a record with the same common name as `dupRecordA` and a
non-empty barcode mapping. -/
def dupRecordB : SpeciesRecord :=
  ⟨"species-b", "Shared Name", [("ITS", "AAA")], none⟩

/-- The classifier sends `C` to ITS (score 1 on the ITS prototype, 0 on
the others). -/
theorem identify_eval_C : identify_barcode_region "C" = "ITS" := by
  have hs1 : calculate_similarity "C" "CGTAACAAGGTTTCCGTAGGTGAACCTGCGGAAGGATCATTG" = 1 := by
    rw [calculate_similarity_eval _ _ 1 1 (by decide) (by decide) (by decide)]
    norm_num
  have hs2 : calculate_similarity "C" "ATGTCACCACAAACAGAGACTAAAGCAAGT" = 0 := by
    rw [calculate_similarity_eval _ _ 0 1 (by decide) (by decide) (by decide)]
    norm_num
  have hs3 : calculate_similarity "C" "ACCCAGTCCATCTGGAAATCTTGGTTCAGG" = 0 := by
    rw [calculate_similarity_eval _ _ 0 1 (by decide) (by decide) (by decide)]
    norm_num
  norm_num [identify_barcode_region, identify_barcode_region_over,
    identifyFold, BARCODE_REGIONS, identifyStep, hs1, hs2, hs3]

/-- The classifier sends `CG` to ITS. -/
theorem identify_eval_CG : identify_barcode_region "CG" = "ITS" := by
  have hs1 : calculate_similarity "CG" "CGTAACAAGGTTTCCGTAGGTGAACCTGCGGAAGGATCATTG" = 1 := by
    rw [calculate_similarity_eval _ _ 2 2 (by decide) (by decide) (by decide)]
    norm_num
  have hs2 : calculate_similarity "CG" "ATGTCACCACAAACAGAGACTAAAGCAAGT" = 0 := by
    rw [calculate_similarity_eval _ _ 0 2 (by decide) (by decide) (by decide)]
    norm_num
  have hs3 : calculate_similarity "CG" "ACCCAGTCCATCTGGAAATCTTGGTTCAGG" = 0 := by
    rw [calculate_similarity_eval _ _ 0 2 (by decide) (by decide) (by decide)]
    norm_num
  norm_num [identify_barcode_region, identify_barcode_region_over,
    identifyFold, BARCODE_REGIONS, identifyStep, hs1, hs2, hs3]

/-- The sequence `T` scores 0 on every prototype, so the classifier
returns the empty region. -/
theorem identify_eval_T : identify_barcode_region "T" = "" := by
  have hs1 : calculate_similarity "T" "CGTAACAAGGTTTCCGTAGGTGAACCTGCGGAAGGATCATTG" = 0 := by
    rw [calculate_similarity_eval _ _ 0 1 (by decide) (by decide) (by decide)]
    norm_num
  have hs2 : calculate_similarity "T" "ATGTCACCACAAACAGAGACTAAAGCAAGT" = 0 := by
    rw [calculate_similarity_eval _ _ 0 1 (by decide) (by decide) (by decide)]
    norm_num
  have hs3 : calculate_similarity "T" "ACCCAGTCCATCTGGAAATCTTGGTTCAGG" = 0 := by
    rw [calculate_similarity_eval _ _ 0 1 (by decide) (by decide) (by decide)]
    norm_num
  norm_num [identify_barcode_region, identify_barcode_region_over,
    identifyFold, BARCODE_REGIONS, identifyStep, hs1, hs2, hs3]

/-- The classifier sends the ginseng ITS input to ITS. -/
theorem identify_eval_its62 : identify_barcode_region its62 = "ITS" := by
  have hs1 : calculate_similarity its62 "CGTAACAAGGTTTCCGTAGGTGAACCTGCGGAAGGATCATTG" = 1 := by
    rw [calculate_similarity_eval _ _ 42 42 (by decide) (by decide) (by decide)]
    norm_num
  have hs2 : calculate_similarity its62 "ATGTCACCACAAACAGAGACTAAAGCAAGT" = (6 : ℚ) / 30 :=
    calculate_similarity_eval _ _ 6 30 (by decide) (by decide) (by decide)
  have hs3 : calculate_similarity its62 "ACCCAGTCCATCTGGAAATCTTGGTTCAGG" = (6 : ℚ) / 30 :=
    calculate_similarity_eval _ _ 6 30 (by decide) (by decide) (by decide)
  norm_num [identify_barcode_region, identify_barcode_region_over,
    identifyFold, BARCODE_REGIONS, identifyStep, hs1, hs2, hs3]

/-- A valid sequence that classifies to the empty region finds no record
to compare and yields the backend's `None`. -/
theorem analyze_eval_T : analyze_dna_sequence_backend "T" = some none := by
  have hidb : identify_barcode_region_backend "T" = some "" := by
    rw [identify_backend_agrees "T" (by decide), identify_eval_T]
  have hn : normalize_sequence "T" = "T" := by decide
  have hv : validate_dna_sequence_backend "T" = true := by decide
  norm_num +decide [analyze_dna_sequence_backend, hv, hn, hidb, DNA_DATABASE,
    ginsengRecord, basilRecord, turmericRecord, List.foldlM, searchStepM,
    dictGet]

/-- An input that fails validation yields the backend's `None`. -/
theorem analyze_eval_xyz : analyze_dna_sequence_backend "xyz" = some none := by
  have hv : validate_dna_sequence_backend "xyz" = false := by decide
  simp [analyze_dna_sequence_backend, hv]

/-- C1 counterexample: the sequence `C` classifies to ITS, the candidate
`c1rec` has an ITS reference (`G`), the actual comparison scores exactly
`0.0`, and yet the search returns `None` rather than a `MatchResult` with
`matchPercentage == 0.0`. -/
theorem claim1_zero_score_counterexample :
    validate_dna_sequence "C" = true ∧
    identify_barcode_region "C" = "ITS" ∧
    dictGet c1rec.barcodes "ITS" = some "G" ∧
    calculate_similarity "C" "G" = 0 ∧
    analyze_dna_sequence [c1rec] "C" = none := by
  have hg : calculate_similarity "C" "G" = 0 := by
    rw [calculate_similarity_eval _ _ 0 1 (by decide) (by decide) (by decide)]
    norm_num
  have hn : normalize_sequence "C" = "C" := by decide
  have hv : validate_dna_sequence "C" = true := by decide
  refine ⟨hv, identify_eval_C, by decide, hg, ?_⟩
  norm_num +decide [analyze_dna_sequence, hv, hn, identify_eval_C, c1rec,
    List.foldl, searchStep, dictGet, hg]

/-- C1 (amended): a best score of exactly `0.0`, even one obtained from an
actual comparison, yields the no-match outcome exactly like the absence
of a comparable candidate: every returned `MatchResult` carries a
strictly positive `matchPercentage`. -/
theorem claim1_match_requires_positive_score
    (candidates : List SpeciesRecord) (sequence : String) (r : MatchResult)
    (h : analyze_dna_sequence candidates sequence = some r) :
    0 < r.matchPercentage := by
  obtain ⟨p, hp, b, hg, hb, hr, hpos, hmax⟩ :=
    analyze_dna_sequence_some candidates sequence r h
  rw [hr]
  show 0 < calculate_similarity (normalize_sequence sequence) b * 100
  exact mul_pos hpos (by norm_num)

/-- C1 witness: a concrete search that does produce a match has a
strictly positive match percentage. -/
theorem claim1_match_requires_positive_score_witness :
    0 < (mkMatchResult "ITS" "C" c1wrec 1 1).matchPercentage :=
  claim1_match_requires_positive_score [c1wrec] "C" _ (by
    have hn : normalize_sequence "C" = "C" := by decide
    have hv : validate_dna_sequence "C" = true := by decide
    have hs : calculate_similarity "C" "C" = 1 := by
      rw [calculate_similarity_eval _ _ 1 1 (by decide) (by decide) (by decide)]
      norm_num
    norm_num +decide [analyze_dna_sequence, hv, hn, identify_eval_C, c1wrec,
      List.foldl, searchStep, dictGet, hs, mkMatchResult])

/-- C4: a successful search returns the fields of some comparable
candidate: `matchPercentage` is its similarity score times 100,
`confidenceScore` is the score times the record's authenticity weight
with a missing weight defaulting to 1 (no error), and that score bounds
every comparable candidate's score. -/
theorem claim4_match_result_fields
    (candidates : List SpeciesRecord) (sequence : String) (r : MatchResult)
    (h : analyze_dna_sequence candidates sequence = some r) :
    ∃ p ∈ candidates, ∃ b,
      dictGet p.barcodes
        (identify_barcode_region (normalize_sequence sequence)) = some b ∧
      b ≠ "" ∧
      r.matchPercentage =
        calculate_similarity (normalize_sequence sequence) b * 100 ∧
      r.confidenceScore = p.authenticity.getD 1 *
        calculate_similarity (normalize_sequence sequence) b ∧
      ∀ q ∈ candidates, ∀ c,
        dictGet q.barcodes
          (identify_barcode_region (normalize_sequence sequence)) = some c →
        c ≠ "" →
        calculate_similarity (normalize_sequence sequence) c ≤
          calculate_similarity (normalize_sequence sequence) b := by
  obtain ⟨p, hp, b, hg, hb, hr, hpos, hmax⟩ :=
    analyze_dna_sequence_some candidates sequence r h
  refine ⟨p, hp, b, hg, hb, ?_, ?_, hmax⟩
  · rw [hr]; simp [mkMatchResult]
  · rw [hr]; simp [mkMatchResult]

/-- C4 witness: a candidate record with no authenticity weight produces a
match whose confidence defaults the weight to 1 instead of erroring. -/
theorem claim4_match_result_fields_witness :
    ∃ p ∈ [c4rec], ∃ b,
      dictGet p.barcodes
        (identify_barcode_region (normalize_sequence "CG")) = some b ∧
      b ≠ "" ∧
      (mkMatchResult "ITS" "CG" c4rec 1 1).matchPercentage =
        calculate_similarity (normalize_sequence "CG") b * 100 ∧
      (mkMatchResult "ITS" "CG" c4rec 1 1).confidenceScore =
        p.authenticity.getD 1 * calculate_similarity (normalize_sequence "CG") b ∧
      ∀ q ∈ [c4rec], ∀ c,
        dictGet q.barcodes
          (identify_barcode_region (normalize_sequence "CG")) = some c →
        c ≠ "" →
        calculate_similarity (normalize_sequence "CG") c ≤
          calculate_similarity (normalize_sequence "CG") b :=
  claim4_match_result_fields [c4rec] "CG" (mkMatchResult "ITS" "CG" c4rec 1 1) (by
    have hn : normalize_sequence "CG" = "CG" := by decide
    have hv : validate_dna_sequence "CG" = true := by decide
    have hs : calculate_similarity "CG" "CG" = 1 := by
      rw [calculate_similarity_eval _ _ 2 2 (by decide) (by decide) (by decide)]
      norm_num
    norm_num +decide [analyze_dna_sequence, hv, hn, identify_eval_CG, c4rec,
      List.foldl, searchStep, dictGet, hs, mkMatchResult])

/-- C5 counterexample: an input that fails validation (`xyz`) and a valid
input that merely finds no match (`T`) produce the identical outcome —
`None` from the engine and the same 400 response from the boundary — so a
caller cannot tell a normalization failure from a valid no-match. -/
theorem claim5_conflation_counterexample :
    validate_dna_sequence_backend "xyz" = false ∧
    validate_dna_sequence_backend "T" = true ∧
    analyze_dna_sequence_backend "xyz" = analyze_dna_sequence_backend "T" ∧
    analyze_sequence_route (some "xyz") = analyze_sequence_route (some "T") := by
  refine ⟨by decide, by decide, ?_, ?_⟩
  · rw [analyze_eval_T, analyze_eval_xyz]
  · simp [analyze_sequence_route, analyze_eval_T, analyze_eval_xyz]

/-- C5 (amended): the pipeline never raises and returns only two
distinguishable outcomes — a `MatchResult` or `None` —, with every
validation failure mapped to the same `None` (and the same 400 message)
as a valid sequence that finds no match. -/
theorem claim5_two_outcomes_only :
    (∀ s : String, ∃ o : Option MatchResult,
      analyze_dna_sequence_backend s = some o) ∧
    (∀ s : String, validate_dna_sequence_backend s = false →
      analyze_dna_sequence_backend s = some none) ∧
    analyze_sequence_route (some "xyz") =
      Except.error (400, "Invalid DNA sequence or no match found") ∧
    analyze_sequence_route (some "T") =
      Except.error (400, "Invalid DNA sequence or no match found") := by
  refine ⟨analyze_backend_total, ?_, ?_, ?_⟩
  · intro s hf
    simp [analyze_dna_sequence_backend, hf]
  · simp [analyze_sequence_route, analyze_eval_xyz]
  · simp [analyze_sequence_route, analyze_eval_T]

/-- C6: the ginseng ITS reference sequence, fed back to the backend
pipeline, classifies as ITS and matches Panax ginseng exactly:
`matchPercentage = 100`, `confidenceScore = 97/100`, the record's own
authenticity weight. -/
theorem claim6_ginseng_end_to_end :
    identify_barcode_region its62 = "ITS" ∧
    analyze_dna_sequence_backend its62 =
      some (some ⟨"Panax ginseng", "Asian Ginseng", 97 / 100, 100, "ITS",
        its62⟩) ∧
    ginsengRecord.authenticity = some (97 / 100) := by
  have hv : validate_dna_sequence_backend its62 = true := by decide
  have hn : normalize_sequence its62 = its62 := by decide
  have hidb : identify_barcode_region_backend its62 = some "ITS" := by
    rw [identify_backend_agrees its62 (by decide), identify_eval_its62]
  have hb1 : calculate_similarity_backend its62
      "CGTAACAAGGTTTCCGTAGGTGAACCTGCGGAAGGATCATTGTCGAAACCTGCATAGCAGAA" =
      some 1 := by
    rw [calculate_similarity_backend_eval _ _ 62 62 (by decide) (by decide)
      (by decide)]
    norm_num
  have hb2 : calculate_similarity_backend its62
      "CGTAACAAGGTTTCCGTAGGTGAACCTGCGGAAGGATCATTGTCGAAACCTGCATAGCAGA" =
      some 1 := by
    rw [calculate_similarity_backend_eval _ _ 61 61 (by decide) (by decide)
      (by decide)]
    norm_num
  have hb3 : calculate_similarity_backend its62
      "CGTAACAAGGTTTCCGTAGGTGAACCTGCGGAAGGATCATTGAGTGAAACCTGC" =
      some ((45 : ℚ) / 54) :=
    calculate_similarity_backend_eval _ _ 45 54 (by decide) (by decide)
      (by decide)
  refine ⟨identify_eval_its62, ?_, rfl⟩
  norm_num +decide [analyze_dna_sequence_backend, hv, hn, hidb, DNA_DATABASE,
    ginsengRecord, basilRecord, turmericRecord, List.foldlM, searchStepM,
    dictGet, mkMatchResult, hb1, hb2, hb3]

/-- C10 counterexample: with two records sharing a common name, the
listing carries an entry under the first record's common name although
that record's barcode mapping is empty (the entry comes from the second
record), refuting the per-record if-and-only-if over arbitrary
collections. -/
theorem claim10_duplicate_name_counterexample :
    dupRecordA.barcodes = [] ∧
    dupRecordA.commonName = "Shared Name" ∧
    get_samples_over [dupRecordA, dupRecordB] = [("Shared Name", "AAA")] ∧
    dictGet (get_samples_over [dupRecordA, dupRecordB])
      dupRecordA.commonName = some "AAA" :=
  ⟨rfl, rfl, by decide, by decide⟩

/-- C10 (amended): over records with pairwise-distinct common names the
listing has an entry for a record's common name exactly when its barcode
mapping is non-empty — empty-mapped records are silently omitted, no
error — and each included record contributes the sequence of the first
region of its mapping; with duplicated common names a later record's
entry overwrites an earlier one's. -/
theorem claim10_samples_first_barcode
    (records : List SpeciesRecord)
    (hnd : (records.map SpeciesRecord.commonName).Nodup) :
    ∀ r ∈ records, dictGet (get_samples_over records) r.commonName =
      r.barcodes.head?.map Prod.snd := by
  intro r hr
  unfold get_samples_over
  exact samples_fold_spec records [] hnd (fun q _ => rfl) r hr

/-- C10 witness: in the fixed backend database the Asian Ginseng entry is
the ginseng record's first (ITS) sequence. -/
theorem claim10_samples_first_barcode_witness :
    dictGet (get_samples_over DNA_DATABASE) ginsengRecord.commonName =
      ginsengRecord.barcodes.head?.map Prod.snd :=
  claim10_samples_first_barcode DNA_DATABASE (by decide) ginsengRecord
    (by simp [DNA_DATABASE])
